import Mathlib

/-
Verification development for the dynamics / kinetic_model estimation engine
(file dynamo/tools/dynamics.py).  Numeric code is embedded over the rational
numbers; the natural logarithm of the floating-point code is abstracted as an
arbitrary function parameter L, and the constant np.log(2) as a parameter ln2,
so that every definition stays executable.  NaN values are modelled as `none`.
-/

namespace Dynamo

/-- Embedding of np.clip(x, lo, hi): clamp x into the closed interval [lo, hi]. -/
def clip (x lo hi : ℚ) : ℚ := min (max x lo) hi

/-- Embedding of Kc = np.clip(gamma[:, None], 0, 1 - 1e-3) from the four
velocity-rescaling branches of the steady-state kin path
(dynamics.py lines 462, 477, 493, 508), per gene i. -/
def KcVec (gamma : ℕ → ℚ) (i : ℕ) : ℚ := clip (gamma i) 0 (1 - 1/1000)

/-- Argument handed to np.log in gamma_ = -(np.log(1 - Kc) / t[None, :]):
the quantity 1 - Kc for gene i. -/
def logArgKc (gamma : ℕ → ℚ) (i : ℕ) : ℚ := 1 - KcVec gamma i

/-- Embedding of gamma_ = -(np.log(1 - Kc) / t[None, :]) (dynamics.py line 463 and
its three sibling branches): broadcast of the per-gene clipped value against the
per-cell time vector.  L stands in for np.log. -/
def gammaMat (L : ℚ → ℚ) (gamma t : ℕ → ℚ) (i j : ℕ) : ℚ :=
  -(L (logArgKc gamma i) / t j)

/-- Embedding of vel_T = (U - csr_matrix(Kc).multiply(S)).multiply(csr_matrix(gamma_ / Kc))
(dynamics.py line 466 and its three sibling branches), elementwise over gene i and cell j. -/
def velTMat (L : ℚ → ℚ) (gamma t : ℕ → ℚ) (U S : ℕ → ℕ → ℚ) (i j : ℕ) : ℚ :=
  (U i j - KcVec gamma i * S i j) * (gammaMat L gamma t i j / KcVec gamma i)

/-- Statement of the spec formula for the effective per-cell degradation rate,
written from the words of the spec: gamma_eff = -ln(1 - clip(gamma, 0, 1 - 1e-3)) / t. -/
def gammaEffSpec (L : ℚ → ℚ) (g t : ℚ) : ℚ := -(L (1 - clip g 0 (1 - 1/1000))) / t

/-- Statement of the spec formula for the rescaled total-RNA velocity, written from
the words of the spec: vel_T = (U - Kc * S) * (gamma_eff / Kc) with Kc = clip(gamma, 0, 1 - 1e-3). -/
def velTSpec (L : ℚ → ℚ) (g t u s : ℚ) : ℚ :=
  (u - clip g 0 (1 - 1/1000) * s) * (gammaEffSpec L g t / clip g 0 (1 - 1/1000))

/-- Embedding of the abort check at dynamics.py line 368:
`if len(valid_bools_) < 5: raise Exception(...)`.  Note that valid_bools_ is the
boolean mask over all genes of the data set, so len(valid_bools_) is the total
gene count, not the number of genes that passed the sanity check. -/
def sanityAbortTriggered (valid_bools : List Bool) : Bool :=
  decide (valid_bools.length < 5)

/-- Number of genes surviving the sanity-check filtering: the count of True
entries of the valid_bools_ mask. -/
def survivingGenes (valid_bools : List Bool) : Nat := valid_bools.count true

/-- Arithmetic mean of a list of rationals (division by zero yields 0 for the
empty list, which the claims never exercise). -/
def listMean (xs : List ℚ) : ℚ := xs.sum / xs.length

/-- Embedding of np.unique over the time vector: the distinct values in
ascending order. -/
def uniqueSorted (ts : List ℚ) : List ℚ :=
  ts.dedup.insertionSort (· ≤ ·)

/-- Modelled from the spec: strat_mom(cur_L, t, np.nanmean) is not under src;
per the spec it stratifies the per-cell values by time point and takes the mean
within each of the unique time points. -/
def strat_mom (Lv t : List ℚ) : List ℚ :=
  (uniqueSorted t).map (fun tp => listMean (((t.zip Lv).filter (fun p => p.1 == tp)).map Prod.snd))

/-- Modelled from the spec: fit_linreg(x, y, intercept=True) is not under src;
per the spec it is an ordinary least-squares linear regression, whose slope with
an intercept is (n * sum x*y - sum x * sum y) / (n * sum x^2 - (sum x)^2). -/
def fit_linreg_slope (xs ys : List ℚ) : ℚ :=
  let n : ℚ := xs.length
  (n * (List.zipWith (· * ·) xs ys).sum - xs.sum * ys.sum) /
    (n * (xs.map (fun x => x * x)).sum - xs.sum * xs.sum)

/-- Embedding of the per-gene keep decision of the sanity check
(dynamics.py line 363): the gene is kept exactly when
(slope > 0 and experiment_type == kin) or (slope < 0 and experiment_type == deg). -/
def sanityKeepSlope (experiment_type : String) (slope : ℚ) : Bool :=
  (decide (slope > 0) && (experiment_type == "kin")) ||
    (decide (slope < 0) && (experiment_type == "deg"))

/-- Embedding of the sanity-check loop body (dynamics.py lines 359-364): the
slope is fit on the unique time points against the time-stratified means of the
total labeled RNA of the gene, and the keep decision applies sanityKeepSlope. -/
def sanityGeneKeep (experiment_type : String) (t Lv : List ℚ) : Bool :=
  sanityKeepSlope experiment_type (fit_linreg_slope (uniqueSorted t) (strat_mom Lv t))

/-- Embedding of filter_gene_mode_list (dynamics.py line 266). -/
def filter_gene_mode_list : List String := ["final", "basic", "no"]

/-- Embedding of filter_checker (dynamics.py lines 267-268): availability of the
use_for_pca column, of the pass_basic_filter column, and an always-true entry
for the mode no. -/
def filterChecker (hasPca hasBasic : Bool) : List Bool := [hasPca, hasBasic, true]

/-- Embedding of the filter-mode resolution (dynamics.py lines 269-272):
filter_id is the index of the requested mode, which_filter the first index at or
after filter_id whose checker entry is true, and the resolved mode is the entry
of filter_gene_mode_list at which_filter.  A requested mode outside the list
would raise in list.index, modelled as none. -/
def resolvedFilterMode (requested : String) (hasPca hasBasic : Bool) : Option String :=
  match filter_gene_mode_list.indexOf? requested with
  | none => none
  | some fid =>
    let which := fid + ((filterChecker hasPca hasBasic).drop fid).indexOf true
    filter_gene_mode_list.get? which

/-- Embedding of the run-configuration record at dynamics.py line 755: the
filter_gene_mode stored into adata.uns is the reassigned variable from line 272,
that is, the resolved mode actually used for filtering. -/
def recordedFilterMode (requested : String) (hasPca hasBasic : Bool) : Option String :=
  resolvedFilterMode requested hasPca hasBasic

/-- Statement of the claimed fallback behavior, written from the words of the
claim: fall back in the fixed order final, basic, no, to the first mode whose
required column is available. -/
def specFallbackMode (requested : String) (hasPca hasBasic : Bool) : Option String :=
  if requested = "final" then
    some (if hasPca then "final" else if hasBasic then "basic" else "no")
  else if requested = "basic" then
    some (if hasBasic then "basic" else "no")
  else if requested = "no" then
    some "no"
  else none

/-- Control-flow outcome of kinetic_model before the per-gene fitting loop. -/
inductive KMPath where
  /-- the kin/twostep branch returns its closed form at lines 815/832, before the loop -/
  | closedForm : KMPath
  /-- control reaches the per-gene fitting loop at line 1039 -/
  | fitLoop : KMPath
  /-- an exception is raised before the loop -/
  | err : String → KMPath
  /-- the kin branch falls through every est_method arm -/
  | fallthrough : KMPath
deriving DecidableEq, Repr

/-- Embedding of the dispatch of kinetic_model over experiment_type, est_method
and model (dynamics.py lines 785-1026): which path the call takes before the
per-gene fitting loop at line 1039.  The source compares experiment_type.lower()
and model.lower(), so experiment_type and model here stand for the lowercased
strings, while est_method is compared verbatim as in the source. -/
def kineticModelPath (experiment_type est_method model : String) : KMPath :=
  if experiment_type = "kin" then
    if est_method = "twostep" then KMPath.closedForm
    else if est_method = "direct" then
      if ["deterministic", "stochastic", "mixture", "mixture_deterministic_stochastic",
          "mixture_stochastic_stochastic"].contains model then KMPath.fitLoop
      else KMPath.err "model with kinetic assumption is not implemented"
    else KMPath.fallthrough
  else if experiment_type = "deg" then
    if ["deterministic", "stochastic"].contains model then KMPath.fitLoop
    else KMPath.err "model with kinetic assumption is not implemented"
  else if experiment_type = "mix_std_stm" then
    KMPath.err "experiment with kinetic assumption is not implemented"
  else if experiment_type = "mix_pulse_chase" then
    if model = "deterministic" then KMPath.fitLoop
    else KMPath.err "only deterministic model implemented for mix_pulse_chase experiment"
  else if experiment_type = "pulse_time_series" then
    KMPath.err "experiment with kinetic assumption is not implemented"
  else if experiment_type = "dual_labeling" then
    KMPath.err "experiment with kinetic assumption is not implemented"
  else KMPath.err "experiment is not recognized"

/-- List of the experiment types recognized by the kinetic_model dispatch. -/
def recognizedExperimentTypes : List String :=
  ["kin", "deg", "mix_std_stm", "mix_pulse_chase", "pulse_time_series", "dual_labeling"]

/-- Modelled from the spec: lin_reg_gamma_synthesis(Total, New, time) is not
under src; per the spec it estimates, for each unique time point, the fraction
K = New / Total (from the stratified means), and gamma is the slope of the
regression of -ln(1 - K) against the unique time points through the origin.
L stands in for np.log. -/
def lin_reg_gamma_synthesis (L : ℚ → ℚ) (total new t : List ℚ) : ℚ :=
  let tu := uniqueSorted t
  let Kv := (List.zip (strat_mom new t) (strat_mom total t)).map (fun p => p.1 / p.2)
  (List.zipWith (fun ti ki => ti * (-(L (1 - ki)))) tu Kv).sum /
    (tu.map (fun x => x * x)).sum

/-- Per-gene result of the kin/twostep closed-form branch. -/
structure TwostepKinFit where
  gamma : ℚ
  gamma_k : ℚ
  beta : ℚ
  half_life : ℚ
deriving Repr

/-- Embedding of the kin/twostep/has_splicing branch (dynamics.py lines
786-815): gamma comes from lin_reg_gamma_synthesis on the total and new layers,
gamma_k is the slope produced by the external stochastic moment fit
fit_slope_stochastic on the spliced/unspliced first/second moments (not under
src, hence an input here), beta is back-solved as gamma / gamma_k, and
half_life is ln2 / gamma.  No optimizer appears in the branch. -/
def twostepKinSplicing (L : ℚ → ℚ) (ln2 : ℚ) (total new t : List ℚ)
    (gamma_k : ℚ) : TwostepKinFit :=
  let gamma := lin_reg_gamma_synthesis L total new t
  { gamma := gamma
    gamma_k := gamma_k
    beta := gamma / gamma_k
    half_life := ln2 / gamma }

/-- Embedding of the _param_ranges key order for the kin models (dynamics.py
lines 849-867 with splicing and 914-928 without), at the call-site value
has_switch = True (line 573).  The model string stands for model.lower(). -/
def kinParamKeys (model : String) (hasSplicing : Bool) : List String :=
  if model = "deterministic" then
    if hasSplicing then ["alpha", "beta", "gamma"] else ["alpha", "gamma"]
  else
    if hasSplicing then ["a", "b", "alpha_a", "alpha_i", "beta", "gamma"]
    else ["a", "b", "alpha_a", "alpha_i", "gamma"]

/-- Modelled from the spec: the estimator classes and their export_parameters
method are not under src; per the spec the Fit Result carries the fitted
parameter vector in the order of the parameter-range table, which the masking of
index 3 (alpha_i) at dynamics.py line 1083 also requires.  The embedding of
Estm[i_gene] (lines 1079-1084): the deterministic model exports the parameters
directly, the stochastic model masks out the entry at index 3 (alpha_i). -/
def estmKeys (model : String) (hasSplicing : Bool) : List String :=
  if model = "deterministic" then kinParamKeys model hasSplicing
  else (kinParamKeys model hasSplicing).eraseIdx 3

/-- Embedding of half_life[i_gene] = np.log(2) / Estm[i_gene][-1] for the kin
direct path (dynamics.py line 1124).  ln2 stands in for np.log(2). -/
def halfLifeKinDirect (ln2 : ℚ) (estm : List ℚ) : ℚ := ln2 / estm.getLastD 0

/-- Embedding of half_life = np.log(2) / gamma on the twostep closed-form path
(dynamics.py lines 812 and 829). -/
def halfLifeTwostep (ln2 gamma : ℚ) : ℚ := ln2 / gamma

/-- Parameter-range table: an ordered association list from parameter name to a
bound pair, embedding the Python dict _param_ranges. -/
abbrev RangeTable : Type := List (String × (ℚ × ℚ))

/-- Embedding of the Python in-place dict update for one key: replace the value
of an existing key preserving its position, or append the binding at the end. -/
def updateRange : RangeTable → String → (ℚ × ℚ) → RangeTable
  | [], k, v => [(k, v)]
  | (k1, v1) :: rest, k, v =>
    if k1 = k then (k, v) :: rest else (k1, v1) :: updateRange rest k v

/-- Embedding of the effect of the per-gene kin loop on the shared _param_ranges
dict (dynamics.py lines 1070-1078 for the update, line 1170 for the returned
dict): for each gene the loop executes
_param_ranges.update(\x7bakey: [0, alpha0 * 10]\x7d) on the shared dict and then
reads the current values for the fit of that gene.  akey is alpha for the
deterministic model and alpha_a for the stochastic one.  Returns the list of the
tables read by each gene and the final table returned to the caller. -/
def kinLoopRanges (akey : String) (init : RangeTable) (alpha0s : List ℚ) :
    List RangeTable × RangeTable :=
  match alpha0s with
  | [] => ([], init)
  | a :: rest =>
    let cur := updateRange init akey (0, 10 * a)
    let r := kinLoopRanges akey cur rest
    (cur :: r.1, r.2)

/-- Modelled from the spec: the velocity class is not under src; per the spec
its spliced velocity is vel_s = beta * U - gamma * S, elementwise over gene i
and cell j. -/
def vel_s (beta gamma : ℕ → ℚ) (U S : ℕ → ℕ → ℚ) : ℕ → ℕ → ℚ :=
  fun i j => beta i * U i j - gamma i * S i j

/-- Velocity record for the four RNA species; NaN is modelled as none. -/
structure VelRecord where
  velU : Option (ℕ → ℕ → ℚ)
  velS : Option (ℕ → ℕ → ℚ)
  velN : Option (ℕ → ℕ → ℚ)
  velT : Option (ℕ → ℕ → ℚ)

/-- Embedding of the velocity branches of the kinetic-assumption path for a deg
experiment (dynamics.py lines 640-650, 663-667, 676-686, 699-703), mirroring the
branch structure over NTR_vel, has_splicing and splicing_labeling.  Uspl and
Sspl are the unspliced and spliced layers: in the NTR_vel branch the code calls
vel.vel_s(U_, S_) where the underscored pair was selected with the negated NTR
flag, and in the other branch vel.vel_s(U, S) with the plain flag, so both calls
receive the unspliced/spliced layers. -/
def degKineticVelocities (NTR_vel has_splicing splicing_labeling : Bool)
    (beta gamma : ℕ → ℚ) (Uspl Sspl : ℕ → ℕ → ℚ) : VelRecord :=
  if NTR_vel then
    if has_splicing then
      if splicing_labeling then
        { velU := none, velS := some (vel_s beta gamma Uspl Sspl), velN := none, velT := none }
      else
        { velU := none, velS := some (vel_s beta gamma Uspl Sspl), velN := none, velT := none }
    else
      { velU := none, velS := none, velN := none, velT := none }
  else
    if has_splicing then
      if splicing_labeling then
        { velU := none, velS := some (vel_s beta gamma Uspl Sspl), velN := none, velT := none }
      else
        { velU := none, velS := some (vel_s beta gamma Uspl Sspl), velN := none, velT := none }
    else
      { velU := none, velS := none, velN := none, velT := none }

end Dynamo

namespace Dynamo

/-- C6.  In every velocity-rescaling branch of the steady-state kin path the
gamma value is clipped to [0, 1 - 1e-3] before the logarithmic inversion, so for
every (finite) gamma the argument of the logarithm is at least 1e-3; in
particular it is strictly positive, so the log(0)/negative-argument error branch
is unreachable.  All four branches (dynamics.py lines 462-466, 477-481, 493-497,
508-512) compute the identical expression KcVec, so the bound covers each of them. -/
theorem C6_log_argument_at_least_one_thousandth (gamma : ℕ → ℚ) (i : ℕ) :
    (1/1000 : ℚ) ≤ logArgKc gamma i ∧ 0 < logArgKc gamma i := by
  have h1 : KcVec gamma i ≤ 1 - 1/1000 := min_le_right _ _
  constructor
  · unfold logArgKc
    linarith
  · unfold logArgKc
    linarith

/-- C2.  In the steady-state path of a kin experiment with rescaling mode
(NTR_vel), for every gene i and cell j the effective degradation rate computed
by the code equals gamma_eff = -ln(1 - clip(gamma, 0, 1 - 1e-3)) / t, and the
total-RNA velocity vel_T equals (U - Kc * S) rescaled elementwise by
gamma_eff / Kc with Kc = clip(gamma, 0, 1 - 1e-3), exactly as the spec states. -/
theorem C2_kin_NTR_rescaling_formula (L : ℚ → ℚ) (gamma t : ℕ → ℚ)
    (U S : ℕ → ℕ → ℚ) (i j : ℕ) :
    gammaMat L gamma t i j = gammaEffSpec L (gamma i) (t j) ∧
    velTMat L gamma t U S i j = velTSpec L (gamma i) (t j) (U i j) (S i j) := by
  constructor
  · unfold gammaMat gammaEffSpec logArgKc KcVec
    ring
  · unfold velTMat velTSpec gammaMat gammaEffSpec logArgKc KcVec
    ring

/-- C1.  The claim states that when fewer than 5 genes survive the sanity-check
filtering the run aborts with a fatal error.  The code instead tests
len(valid_bools_) < 5, the length of the gene mask (the total gene count): on a
data set of 6 genes where every gene fails the sanity check (0 survivors), the
abort is not triggered, although the exception text speaks of fewer than 5
valid genes.  This theorem evaluates the embedded check at that failing input. -/
theorem C1_abort_checks_length_not_survivors :
    survivingGenes [false, false, false, false, false, false] = 0 ∧
    (0 : Nat) < 5 ∧
    sanityAbortTriggered [false, false, false, false, false, false] = false := by
  decide

/-- C3.  A gene subjected to the sanity check (experiment_type kin or deg) is
kept if and only if the OLS slope of its time-stratified mean total labeled RNA
versus the unique time points is strictly positive under kin, or strictly
negative under deg; every other gene is removed. -/
theorem C3_sanity_keep_iff_slope_sign (experiment_type : String) (t Lv : List ℚ)
    (h : experiment_type = "kin" ∨ experiment_type = "deg") :
    (sanityGeneKeep experiment_type t Lv = true ↔
      (experiment_type = "kin" ∧
        0 < fit_linreg_slope (uniqueSorted t) (strat_mom Lv t)) ∨
      (experiment_type = "deg" ∧
        fit_linreg_slope (uniqueSorted t) (strat_mom Lv t) < 0)) := by
  unfold sanityGeneKeep sanityKeepSlope
  rcases h with h | h <;> subst h <;>
    simp [Bool.or_eq_true, Bool.and_eq_true, decide_eq_true_eq]

/-- C3 witness: a concrete gene with two time points and increasing labeled RNA
under a kin experiment, at which the keep decision and the slope criterion are
evaluated. -/
theorem C3_sanity_keep_witness :
    sanityGeneKeep "kin" [0, 1] [0, 1] = true ↔
      ("kin" = "kin" ∧
        0 < fit_linreg_slope (uniqueSorted [0, 1]) (strat_mom [0, 1] [0, 1])) ∨
      ("kin" = "deg" ∧
        fit_linreg_slope (uniqueSorted [0, 1]) (strat_mom [0, 1] [0, 1]) < 0) :=
  C3_sanity_keep_iff_slope_sign "kin" [0, 1] [0, 1] (Or.inl rfl)

/-- C10.  For every requested filter_gene_mode from the recognized list, the
mode resolution never fails: it falls back in the fixed order final, basic, no
to the first mode whose adata.var column is available, and the mode recorded in
the run-configuration metadata is the resolved one, not the requested one. -/
theorem C10_filter_mode_fallback (requested : String) (hasPca hasBasic : Bool)
    (h : requested ∈ filter_gene_mode_list) :
    resolvedFilterMode requested hasPca hasBasic =
      specFallbackMode requested hasPca hasBasic ∧
    resolvedFilterMode requested hasPca hasBasic ≠ none ∧
    recordedFilterMode requested hasPca hasBasic =
      resolvedFilterMode requested hasPca hasBasic := by
  simp only [filter_gene_mode_list, List.mem_cons, List.not_mem_nil, or_false] at h
  rcases h with h | h | h <;> subst h <;>
    cases hasPca <;> cases hasBasic <;>
      exact ⟨by decide, by decide, rfl⟩

/-- C10 witness: requesting the final mode when the use_for_pca column is absent
but pass_basic_filter is present resolves (and records) the basic mode. -/
theorem C10_filter_mode_witness :
    resolvedFilterMode "final" false true = specFallbackMode "final" false true ∧
    resolvedFilterMode "final" false true ≠ none ∧
    recordedFilterMode "final" false true = resolvedFilterMode "final" false true :=
  C10_filter_mode_fallback "final" false true (by decide)

/-- C7.  For every call of kinetic_model whose (lowercased) experiment type is
mix_std_stm, pulse_time_series or dual_labeling, and for every unrecognized
experiment type, the dispatch raises an error before the per-gene fitting loop
is reached, for any est_method and model. -/
theorem C7_unsupported_experiment_errors (experiment_type est_method model : String)
    (h : experiment_type ∈ ["mix_std_stm", "pulse_time_series", "dual_labeling"] ∨
      experiment_type ∉ recognizedExperimentTypes) :
    (∃ msg, kineticModelPath experiment_type est_method model = KMPath.err msg) ∧
    kineticModelPath experiment_type est_method model ≠ KMPath.fitLoop := by
  have key : ∃ msg, kineticModelPath experiment_type est_method model = KMPath.err msg := by
    rcases h with h | h
    · simp only [List.mem_cons, List.not_mem_nil, or_false] at h
      rcases h with h | h | h <;> subst h <;>
        exact ⟨"experiment with kinetic assumption is not implemented",
          by simp [kineticModelPath]⟩
    · simp only [recognizedExperimentTypes, List.mem_cons, List.not_mem_nil, or_false,
        not_or] at h
      obtain ⟨h1, h2, h3, h4, h5, h6⟩ := h
      exact ⟨"experiment is not recognized",
        by simp [kineticModelPath, h1, h2, h3, h4, h5, h6]⟩
  obtain ⟨msg, hm⟩ := key
  refine ⟨⟨msg, hm⟩, ?_⟩
  rw [hm]
  exact fun hc => KMPath.noConfusion hc

/-- C7 witness: the mix_std_stm experiment type errors before the fitting loop
for a concrete est_method and model. -/
theorem C7_unsupported_experiment_witness :
    (∃ msg, kineticModelPath "mix_std_stm" "direct" "deterministic" = KMPath.err msg) ∧
    kineticModelPath "mix_std_stm" "direct" "deterministic" ≠ KMPath.fitLoop :=
  C7_unsupported_experiment_errors "mix_std_stm" "direct" "deterministic"
    (Or.inl (by decide))

/-- C4.  For a kin experiment with est_method twostep, the dispatch takes the
closed-form branch (never the per-gene fitting loop, hence no iterative
optimizer), gamma comes from the log-linear regression of total versus new RNA,
and beta is back-solved as gamma / gamma_k from the slope gamma_k of the
external stochastic moment fit. -/
theorem C4_twostep_closed_form (L : ℚ → ℚ) (ln2 : ℚ) (total new t : List ℚ)
    (gamma_k : ℚ) (model : String) :
    kineticModelPath "kin" "twostep" model = KMPath.closedForm ∧
    kineticModelPath "kin" "twostep" model ≠ KMPath.fitLoop ∧
    (twostepKinSplicing L ln2 total new t gamma_k).gamma =
      lin_reg_gamma_synthesis L total new t ∧
    (twostepKinSplicing L ln2 total new t gamma_k).beta =
      lin_reg_gamma_synthesis L total new t / gamma_k := by
  refine ⟨?_, ?_, rfl, rfl⟩
  · simp [kineticModelPath]
  · simp [kineticModelPath]

/-- C9.  For every fitted gene with gamma > 0 the reported half_life equals
ln 2 / gamma exactly, on the direct per-gene kinetic-fitting path (where the
code divides ln 2 by the last entry of the exported parameter vector, which is
gamma for both the deterministic and the stochastic kin model, with or without
splicing) and on the twostep closed-form path. -/
theorem C9_half_life_is_ln2_over_gamma (p : String → ℚ) (model : String)
    (hasSplicing : Bool) (ln2 : ℚ)
    (hm : model = "deterministic" ∨ model = "stochastic")
    (hg : 0 < p "gamma") :
    halfLifeKinDirect ln2 ((estmKeys model hasSplicing).map p) = ln2 / p "gamma" ∧
    halfLifeTwostep ln2 (p "gamma") = ln2 / p "gamma" := by
  refine ⟨?_, rfl⟩
  rcases hm with h | h <;> subst h <;> cases hasSplicing <;> rfl

/-- C9 witness: the stochastic kin model with splicing, all parameters fitted to
3 and ln 2 stood in by 7, gives half_life 7 / 3 on both paths. -/
theorem C9_half_life_witness :
    halfLifeKinDirect 7 ((estmKeys "stochastic" true).map (fun _ => 3)) = 7 / 3 ∧
    halfLifeTwostep 7 3 = 7 / 3 :=
  C9_half_life_is_ln2_over_gamma (fun _ => 3) "stochastic" true 7
    (Or.inr rfl) (by norm_num)

/-- C8.  For every deg experiment under the kinetic assumption, the velocity
reconstruction gives NaN for vel_U, vel_N and vel_T in all (NTR_vel,
splicing_labeling) combinations, while vel_S is computed as beta U - gamma S
from the unspliced/spliced layers when splicing data exists and is NaN
otherwise; the reconstruction is a total function of the flags, so no
combination errors. -/
theorem C8_deg_velocity_policy (NTR_vel splicing_labeling has_splicing : Bool)
    (beta gamma : ℕ → ℚ) (Uspl Sspl : ℕ → ℕ → ℚ) :
    (degKineticVelocities NTR_vel has_splicing splicing_labeling beta gamma Uspl Sspl).velU
        = none ∧
    (degKineticVelocities NTR_vel has_splicing splicing_labeling beta gamma Uspl Sspl).velN
        = none ∧
    (degKineticVelocities NTR_vel has_splicing splicing_labeling beta gamma Uspl Sspl).velT
        = none ∧
    (degKineticVelocities NTR_vel has_splicing splicing_labeling beta gamma Uspl Sspl).velS
        = (if has_splicing then
            some (fun i j => beta i * Uspl i j - gamma i * Sspl i j) else none) := by
  cases NTR_vel <;> cases has_splicing <;> cases splicing_labeling <;>
    exact ⟨rfl, rfl, rfl, rfl⟩

/-- Updating the same key twice keeps only the second value: the Python dict
update is idempotent in its first update. -/
theorem updateRange_override (tbl : RangeTable) (k : String) (v w : ℚ × ℚ) :
    updateRange (updateRange tbl k v) k w = updateRange tbl k w := by
  induction tbl with
  | nil => simp [updateRange]
  | cons hd rest ih =>
    obtain ⟨k1, v1⟩ := hd
    by_cases hk : k1 = k
    · simp [updateRange, hk]
    · simp [updateRange, hk, ih]

/-- The final table of the per-gene loop equals the initial table updated with
the alpha range of the last gene. -/
theorem kinLoopRanges_final (akey : String) (init : RangeTable) (a : ℚ)
    (rest : List ℚ) :
    (kinLoopRanges akey init (a :: rest)).2 =
      updateRange init akey (0, 10 * (a :: rest).getLastD 0) := by
  induction rest generalizing init a with
  | nil => rfl
  | cons b rest ih =>
    have step : (kinLoopRanges akey init (a :: b :: rest)).2 =
        (kinLoopRanges akey (updateRange init akey (0, 10 * a)) (b :: rest)).2 := rfl
    have hlast : (a :: b :: rest).getLastD 0 = (b :: rest).getLastD 0 := by
      simp [List.getLastD_cons]
    rw [step, ih, updateRange_override, hlast]

/-- The table read by gene i in the per-gene loop equals the initial table
updated with the alpha range of gene i alone. -/
theorem kinLoopRanges_used (akey : String) (init : RangeTable) (alpha0s : List ℚ)
    (i : ℕ) (hi : i < alpha0s.length) :
    (kinLoopRanges akey init alpha0s).1.getD i [] =
      updateRange init akey (0, 10 * alpha0s.getD i 0) := by
  induction alpha0s generalizing init i with
  | nil => simp at hi
  | cons a rest ih =>
    cases i with
    | zero => rfl
    | succ n =>
      have hn : n < rest.length := by simpa using hi
      calc (kinLoopRanges akey init (a :: rest)).1.getD (n + 1) []
          = (kinLoopRanges akey (updateRange init akey (0, 10 * a)) rest).1.getD n [] := rfl
        _ = updateRange (updateRange init akey (0, 10 * a)) akey
              (0, 10 * rest.getD n 0) := ih (updateRange init akey (0, 10 * a)) n hn
        _ = updateRange init akey (0, 10 * rest.getD n 0) := updateRange_override ..
        _ = updateRange init akey (0, 10 * (a :: rest).getD (n + 1) 0) := rfl

/-- C5 counterexample.  The claim states that the per-gene alpha-range
adaptation never changes the range table returned to the caller.  On a concrete
registry table with alpha range [0, 1000] and two genes with rough alpha
estimates 1 and 2, the table returned after the loop differs from the original
(its alpha entry has become [0, 20]). -/
theorem C5_returned_table_mutated :
    (kinLoopRanges "alpha" [("alpha", (0, 1000)), ("gamma", (0, 1000))] [1, 2]).2 ≠
      [("alpha", (0, 1000)), ("gamma", (0, 1000))] := by
  norm_num [kinLoopRanges, updateRange]

/-- C5 (amended).  The range dict is a single shared table mutated in place,
not a per-gene owned copy; because every gene overwrites the alpha entry before
reading, the table read by each gene equals the initial table adapted with that
gene's own alpha estimate (so the sequential loop has no cross-gene
contamination of the fit inputs), but the table returned to the caller carries
the last gene's adapted alpha range instead of the original one. -/
theorem C5_shared_ranges_amended (akey : String) (init : RangeTable)
    (alpha0s : List ℚ) (i : ℕ) (hi : i < alpha0s.length) :
    (kinLoopRanges akey init alpha0s).1.getD i [] =
      updateRange init akey (0, 10 * alpha0s.getD i 0) ∧
    (kinLoopRanges akey init alpha0s).2 =
      updateRange init akey (0, 10 * alpha0s.getLastD 0) := by
  refine ⟨kinLoopRanges_used akey init alpha0s i hi, ?_⟩
  cases alpha0s with
  | nil => simp at hi
  | cons a rest => exact kinLoopRanges_final akey init a rest

/-- C5 witness: two genes with alpha estimates 1 and 2 over the registry table
with a single alpha entry; gene 0 reads the table adapted to [0, 10] and the
caller receives the table adapted to [0, 20]. -/
theorem C5_shared_ranges_witness :
    (kinLoopRanges "alpha" [("alpha", (0, 1000))] [1, 2]).1.getD 0 [] =
      updateRange [("alpha", (0, 1000))] "alpha" (0, 10 * 1) ∧
    (kinLoopRanges "alpha" [("alpha", (0, 1000))] [1, 2]).2 =
      updateRange [("alpha", (0, 1000))] "alpha" (0, 10 * 2) :=
  C5_shared_ranges_amended "alpha" [("alpha", (0, 1000))] [1, 2] 0 (by decide)

end Dynamo
